import Mathlib

/-!
Verification development for the ComputoPermutoBook build pipeline
(`scripts/build_all_chapters.py` and `scripts/generate_book_chapter.py`).

The Python sources are shallowly embedded below: JSON-like documents become
an inductive type, the result dictionaries returned by the validator become a
structure with optional fields, raised exceptions become an `Except` layer,
and the external interpreter invocation becomes an explicit `RunOutcome`
input.  External library calls (`json.loads` on interpreter output) are
passed in as an explicit parse function.
-/

set_option maxHeartbeats 1000000

/-- A JSON-like document, as produced by `tomli.load` / `json.loads`:
objects are ordered field lists, arrays are ordered element lists. -/
inductive Json where
  | null : Json
  | bool : Bool → Json
  | num : Int → Json
  | str : String → Json
  | arr : List Json → Json
  | obj : List (String × Json) → Json

mutual

/-- Python structural equality (`==`) on parsed JSON values: scalars compare
by value, lists element-wise in order, dicts as key-value maps with member
order insignificant. Models the comparison
`actual_output == expected_output` in `_validate_example`. -/
def jeq : Json → Json → Bool
  | .null, .null => true
  | .bool a, .bool b => a == b
  | .num a, .num b => a == b
  | .str a, .str b => a == b
  | .arr a, .arr b => jeqList a b
  | .obj a, .obj b => jeqFields a b && jeqFields b a
  | _, _ => false
termination_by a b => sizeOf a + sizeOf b

/-- Element-wise, order-sensitive equality of JSON arrays. -/
def jeqList : List Json → List Json → Bool
  | [], [] => true
  | a :: as, b :: bs => jeq a b && jeqList as bs
  | _, _ => false
termination_by a b => sizeOf a + sizeOf b

/-- Every field of the first object occurs (with an equal value) in the
second object; order-insensitive. -/
def jeqFields : List (String × Json) → List (String × Json) → Bool
  | [], _ => true
  | (k, v) :: rest, b => jeqKey k v b && jeqFields rest b
termination_by a b => sizeOf a + sizeOf b

/-- Looks the key up in the object's fields and compares the values. -/
def jeqKey : String → Json → List (String × Json) → Bool
  | _, _, [] => false
  | k, v, (k2, v2) :: rest => if k = k2 then jeq v v2 else jeqKey k v rest
termination_by _ v b => sizeOf v + sizeOf b

end

/-- A chapter example's `script` value as loaded from TOML: either a textual
encoding of a document or an already-structured document. -/
inductive Script where
  | text : String → Script
  | doc : Json → Script

/-- One example of a content unit, mirroring the fields read from the TOML
`examples` entries.  `input` is the example's input object (TOML table),
empty when absent, since the code only ever reads it through
`example.get(\x27input\x27, \x7b\x7d)`.  The section tag field is named
`sectionTag` because `section` is a Lean keyword. -/
structure Example where
  name : String
  description : String
  script : Script
  input : List (String × Json) := []
  expected : Option Json := none
  cli_flags : Option (List String) := none
  sectionTag : Option String := none
  tutorial_text : Option String := none
  notes : Option String := none

/-- `len(example.get(\x27input\x27, \x7b\x7d)) > 0` in `_validate_example`,
`_format_example_for_markdown`, `_create_cli_scripts` and
`save_examples_organized`. -/
def hasInput (ex : Example) : Bool :=
  !ex.input.isEmpty

/-- A Python exception raised during validation or packaging. -/
inductive PyExc where
  | timeoutExpired : PyExc
  | keyError : String → PyExc
  | nameError : String → PyExc
  | otherErr : String → PyExc
deriving DecidableEq

/-- Python `str(e)` for the modelled exceptions (`KeyError` renders as the
quoted key, `NameError` as the standard message). -/
def excMsg : PyExc → String
  | .timeoutExpired => "timed out after 30 seconds"
  | .keyError k => "\x27" ++ k ++ "\x27"
  | .nameError n => "name \x27" ++ n ++ "\x27 is not defined"
  | .otherErr m => m

/-- Outcome of the `subprocess.run` invocation of the interpreter:
a 30-second timeout (`subprocess.TimeoutExpired`), some other exception
raised by the invocation (e.g. the interpreter executable is missing), or a
completed process with its exit code and captured streams. -/
inductive RunOutcome where
  | timeout : RunOutcome
  | raises : String → RunOutcome
  | completed : Int → String → String → RunOutcome

/-- The dictionary returned by `_validate_example`; each optional field is
`none` exactly when the corresponding key is absent from the returned dict. -/
structure ValidationDict where
  success : Bool
  error : Option String := none
  output : Option Json := none
  expected : Option Json := none
  actual : Option Json := none
  stderr : Option String := none
  stdout : Option String := none
  raw_output : Option String := none
  command : Option String := none

/-- Context for one validation run: the behaviour of `json.loads` on stripped
interpreter output (external library call, `.error` carries the
`JSONDecodeError` message), the interpreter path, and the two temporary file
names handed out by `tempfile.NamedTemporaryFile`. -/
structure ValidateCtx where
  parse : String → Except String Json
  computoPath : String
  scriptPath : String
  inputPath : String

/-- The command list built at lines 68-73 of `generate_book_chapter.py`:
`[computo_path] + cli_flags + [script_path] + ([input_path] if input)`. -/
def cmdList (ctx : ValidateCtx) (ex : Example) : List String :=
  [ctx.computoPath] ++ ex.cli_flags.getD [] ++ [ctx.scriptPath]
    ++ (if hasInput ex then [ctx.inputPath] else [])

/-- `\x27 \x27.join(cmd)` as stored in the failure dictionaries. -/
def cmdString (ctx : ValidateCtx) (ex : Example) : String :=
  String.intercalate " " (cmdList ctx ex)

/-- Which temporary files exist and which have been removed when
`_validate_example` returns. -/
structure TempState where
  scriptCreated : Bool
  inputCreated : Bool
  scriptRemoved : Bool
  inputRemoved : Bool

/-- Temp-file state right after creation: the script file always exists, the
input file only when the example has non-empty input. -/
def createdState (ex : Example) : TempState :=
  { scriptCreated := true, inputCreated := hasInput ex
    scriptRemoved := false, inputRemoved := false }

/-- Temp-file state after the `os.unlink` calls at lines 79-81, which run
only once `subprocess.run` has returned. -/
def cleanedState (ex : Example) : TempState :=
  { scriptCreated := true, inputCreated := hasInput ex
    scriptRemoved := true, inputRemoved := hasInput ex }

/-- The dict built when the interpreter exits non-zero. -/
def processFailureDict (rc : Int) (out err cmdS : String) : ValidationDict :=
  { success := false
    error := some ("Computo returned error code " ++ toString rc)
    stderr := some err
    stdout := some out
    command := some cmdS }

/-- The dict built when the interpreter output parses and equals the
expected document. -/
def successDict (actual : Json) (out err : String) : ValidationDict :=
  { success := true
    output := some actual
    stderr := some err
    stdout := some out }

/-- The dict built when parsed output differs from the expected document. -/
def mismatchDict (exp actual : Json) (out err : String) : ValidationDict :=
  { success := false
    error := some "Output mismatch"
    expected := some exp
    actual := some actual
    stderr := some err
    stdout := some out }

/-- The dict built when `json.loads` fails on the interpreter output. -/
def parseFailureDict (raw err cmdS msg : String) : ValidationDict :=
  { success := false
    error := some ("Failed to parse Computo output as JSON: " ++ msg)
    raw_output := some raw
    stderr := some err
    command := some cmdS }

/-- The dict built by the `subprocess.TimeoutExpired` handler. -/
def timeoutDict : ValidationDict :=
  { success := false
    error := some "Computo execution timed out after 30 seconds" }

/-- The dict built by the catch-all `except Exception` handler. -/
def unexpectedDict (e : PyExc) : ValidationDict :=
  { success := false
    error := some ("Unexpected error: " ++ excMsg e) }

/-- The classification performed after `subprocess.run` returns (lines
83-120): non-zero exit code, then output parsing, then the lookup
`example[\x27expected\x27]` (which raises `KeyError` when the example has no
expected output; the error escapes the inner `try`, whose only handler is
for `json.JSONDecodeError`), then the structural comparison. -/
def classifyCompleted (ctx : ValidateCtx) (ex : Example) (rc : Int)
    (out err : String) : Except PyExc ValidationDict :=
  if rc ≠ 0 then .ok (processFailureDict rc out err (cmdString ctx ex))
  else
    match ctx.parse out with
    | .error msg => .ok (parseFailureDict out err (cmdString ctx ex) msg)
    | .ok actual =>
      match ex.expected with
      | none => .error (.keyError "expected")
      | some exp =>
        if jeq actual exp then .ok (successDict actual out err)
        else .ok (mismatchDict exp actual out err)

/-- The body of the outer `try` in `_validate_example`, together with the
temp-file state on exit.  The `os.unlink` cleanup sits after the
`subprocess.run` call, so a timeout or an exception from the invocation
leaves both temporary files behind, while every completed invocation cleans
up before classification. -/
def tryBody (ctx : ValidateCtx) (ex : Example) (run : RunOutcome) :
    Except PyExc ValidationDict × TempState :=
  match run with
  | .timeout => (.error .timeoutExpired, createdState ex)
  | .raises m => (.error (.otherErr m), createdState ex)
  | .completed rc out err => (classifyCompleted ctx ex rc out err, cleanedState ex)

/-- `BookChapterGenerator._validate_example`: the `try` body with its two
handlers, `except subprocess.TimeoutExpired` and `except Exception`.  Always
returns a dictionary; no exception escapes. -/
def validateExample (ctx : ValidateCtx) (ex : Example) (run : RunOutcome) :
    ValidationDict × TempState :=
  match tryBody ctx ex run with
  | (.ok d, st) => (d, st)
  | (.error .timeoutExpired, st) => (timeoutDict, st)
  | (.error e, st) => (unexpectedDict e, st)

/-- The document written to the script temp file at line 55:
`json.dump(example[\x27script\x27], script_file)` serializes the value as
is, so a textual script becomes a JSON string literal. -/
def validatorScriptDoc : Script → Json
  | .text s => .str s
  | .doc j => j

/-- Unfolding equation of `tryBody` on a completed interpreter run. -/
theorem tryBody_completed (ctx : ValidateCtx) (ex : Example) (rc : Int)
    (out err : String) :
    tryBody ctx ex (.completed rc out err)
      = (classifyCompleted ctx ex rc out err, cleanedState ex) := rfl

/-- The temp-file state reported by `validateExample` is the state the
`try` body left behind: the exception handlers perform no cleanup. -/
theorem validateExample_snd (ctx : ValidateCtx) (ex : Example)
    (run : RunOutcome) :
    (validateExample ctx ex run).2 = (tryBody ctx ex run).2 := by
  unfold validateExample
  cases h : tryBody ctx ex run with
  | mk exc st =>
    cases exc with
    | ok d => rfl
    | error e => cases e <;> rfl

/-- The `script.json` document written by `save_examples_organized` (lines
524-534): a textual script is parsed with `json.loads`, falling back to the
literal string when parsing fails; a structured script is written as is. -/
def packagedScriptDoc (parse : String → Except String Json) : Script → Json
  | .text t =>
    match parse t with
    | .ok j => j
    | .error _ => .str t
  | .doc j => j

/-- A content unit is a chapter (`[chapter]` table with `number`) or an
appendix (`[appendix]` table with `letter`). -/
inductive UnitKind where
  | chapter : Nat → UnitKind
  | appendix : String → UnitKind

/-- A loaded content unit: kind, title, and its ordered examples. -/
structure ContentUnit where
  kind : UnitKind
  title : String
  examples : List Example

/-- Python `f"\x7bn:02d\x7d"` for the nonnegative chapter numbers. -/
def pad2 (n : Nat) : String :=
  if n < 10 then "0" ++ toString n else toString n

/-- Replaces every occurrence of the character `a` with `b`; character-level
model of Python `str.replace` for the single-character patterns the code
uses. -/
def replaceChar (a b : Char) (s : String) : String :=
  String.mk (s.data.map (fun c => if c = a then b else c))

/-- Python `str.lower()`, character by character (the titles in play are
ASCII). -/
def lowerStr (s : String) : String :=
  String.mk (s.data.map Char.toLower)

/-- `title.lower().replace(\x27 \x27, \x27_\x27).replace(\x27-\x27, \x27_\x27)`
as used when building unit directory names. -/
def slugTitle (t : String) : String :=
  replaceChar '-' '_' (replaceChar ' ' '_' (lowerStr t))

/-- The unit's output directory name (lines 489-496 and 263-270):
`ch<NN>_<slug>` for chapters, `appendix_<letter>_<slug>` for appendices. -/
def dirNameOf (u : ContentUnit) : String :=
  match u.kind with
  | .appendix l => "appendix_" ++ l.toLower ++ "_" ++ slugTitle u.title
  | .chapter n => "ch" ++ pad2 n ++ "_" ++ slugTitle u.title

/-- `example.get(\x27section\x27, \x27general\x27)`. -/
def sectionOf (ex : Example) : String :=
  ex.sectionTag.getD "general"

/-- The section keys in first-appearance order, as insertion into the Python
dict `examples_by_section` produces them. -/
def sectionKeys (exs : List Example) : List String :=
  exs.foldl (fun acc ex =>
    if acc.contains (sectionOf ex) then acc else acc ++ [sectionOf ex]) []

/-- `examples_by_section`: examples grouped by section tag, groups in
first-appearance order, examples in declaration order within each group. -/
def groupBySection (exs : List Example) : List (String × List Example) :=
  (sectionKeys exs).map (fun s => (s, exs.filter (fun ex => sectionOf ex == s)))

/-- The core JSON files written for one example (lines 519-545): the dict is
populated with `expected.json` first — where `example[\x27expected\x27]`
raises `KeyError` when the example has no expected output — then
`script.json`, then `input.json` only when the input is non-empty. -/
def exampleFiles (parse : String → Except String Json) (ex : Example) :
    Except PyExc (List (String × Json)) :=
  match ex.expected with
  | none => .error (.keyError "expected")
  | some e =>
    let base := [("expected.json", e), ("script.json", packagedScriptDoc parse ex.script)]
    .ok (if hasInput ex then base ++ [("input.json", Json.obj ex.input)] else base)

/-- The `metadata.json` contents (lines 548-557). -/
structure ExampleMeta where
  name : String
  description : String
  sectionTag : String
  cli_flags : List String
  chapter : Nat
  chapter_title : String
  tutorial_text : Option String

/-- Builds the metadata dict.  In `save_examples_organized` the variable
`chapter_num` is assigned only in the chapter branch, so evaluating
`\x27chapter\x27: chapter_num` for an appendix raises `NameError` (before
`chapter_data[\x27chapter\x27]` could raise its `KeyError`). -/
def metadataFor (u : ContentUnit) (ex : Example) : Except PyExc ExampleMeta :=
  match u.kind with
  | .appendix _ => .error (.nameError "chapter_num")
  | .chapter n =>
    .ok { name := ex.name
          description := ex.description
          sectionTag := ex.sectionTag.getD ""
          cli_flags := ex.cli_flags.getD []
          chapter := n
          chapter_title := u.title
          tutorial_text := ex.tutorial_text }

/-- One example as materialized on disk by the packager. -/
structure PackagedExample where
  path : List String
  files : List (String × Json)
  metadata : ExampleMeta

/-- The artifacts of packaging one unit. -/
structure PackageOutput where
  examples : List PackagedExample
  zipName : String

/-- Packages one example within its section directory:
`code/<unit-dir>/<section>/<name>/` with its JSON file set and metadata. -/
def packageExample (parse : String → Except String Json) (u : ContentUnit)
    (sectionName : String) (ex : Example) : Except PyExc PackagedExample := do
  let fs ← exampleFiles parse ex
  let md ← metadataFor u ex
  .ok { path := ["code", dirNameOf u, sectionName, ex.name]
        files := fs
        metadata := md }

/-- `BookChapterGenerator.save_examples_organized`: returns early when the
unit has no examples; otherwise packages every example by section, then
writes the README (`_create_chapter_readme` reads
`chapter_data[\x27chapter\x27)`, raising `KeyError` for appendices) and the
zip (`_create_chapter_zip` names it `ch<NN>_examples.zip` from
`chapter_data[\x27chapter\x27][\x27number\x27]`). -/
def saveExamplesOrganized (parse : String → Except String Json)
    (u : ContentUnit) : Except PyExc (Option PackageOutput) :=
  if u.examples.isEmpty then .ok none
  else do
    let pexs ← (groupBySection u.examples).mapM
      (fun g => g.2.mapM (packageExample parse u g.1))
    match u.kind with
    | .appendix _ => .error (.keyError "chapter")
    | .chapter n =>
      .ok (some { examples := pexs.flatten
                  zipName := "ch" ++ pad2 n ++ "_examples.zip" })

/-- One entry of `self.example_results`: the example together with its
validation dictionary.  The field holding the example is named `ex` because
`example` is a Lean keyword. -/
structure ExResult where
  ex : Example
  result : ValidationDict

/-- `validate_all_examples`: validates the examples in declaration order,
the interpreter behaviour for the i-th example given by `runs i`. -/
def validateAllExamples (ctx : ValidateCtx) (exs : List Example)
    (runs : Nat → RunOutcome) : List ExResult :=
  exs.enum.map (fun p => { ex := p.2, result := (validateExample ctx p.2 (runs p.1)).1 })

/-- `generate_test_report`: returns without writing when there are no
results; otherwise the report filename interpolates
`chapter_data[\x27chapter\x27][\x27number\x27]`, which raises `KeyError`
for an appendix.  For a chapter it writes `ch<NN>_test_report.md`. -/
def testReportWrite (u : ContentUnit) (rs : List ExResult) :
    Except PyExc (Option String) :=
  if rs.isEmpty then .ok none
  else
    match u.kind with
    | .appendix _ => .error (.keyError "chapter")
    | .chapter n => .ok (some ("ch" ++ pad2 n ++ "_test_report.md"))

/-- The per-unit identifier stored in the build result (lines 79-82 of
`build_all_chapters.py`): the integer chapter number, or the string
`Appendix <letter>`. -/
inductive ChapterId where
  | intId : Int → ChapterId
  | strId : String → ChapterId
deriving DecidableEq

/-- The identifier computed after a successful unit generation. -/
def identifierOf (u : ContentUnit) : ChapterId :=
  match u.kind with
  | .appendix l => .strId ("Appendix " ++ l)
  | .chapter n => .intId (n : Int)

/-- The per-unit dictionary returned by `generate_single_chapter`:
`error` is present only on the exception path, `validation_results` only
when validation ran and the unit completed. -/
structure BuildResult where
  chapter : ChapterId
  success : Bool
  error : Option String
  validation_results : Option (List ExResult)

/-- The inputs that determine one unit's processing: the TOML file's stem,
the outcome of loading it, and the interpreter behaviour per example. -/
structure UnitInput where
  stem : String
  loaded : Except String ContentUnit
  runs : Nat → RunOutcome

/-- The intermediate record of a unit that processed without exception. -/
structure BuildCore where
  chapter : ChapterId
  success : Bool
  vr : Option (List ExResult)

/-- The `try` body of `generate_single_chapter`: load the unit; when
validation is requested, validate every example and write the test report;
generate the markdown page (always succeeds in this model); save the
organized examples (which can raise, e.g. for appendices); finally compute
the identifier. -/
def unitBody (ctx : ValidateCtx) (validateFlag : Bool) (ui : UnitInput) :
    Except PyExc BuildCore := do
  let u ← match ui.loaded with
    | .error m => Except.error (PyExc.otherErr m)
    | .ok u => Except.ok u
  let vr ← if validateFlag then do
      let rs := validateAllExamples ctx u.examples ui.runs
      let _ ← testReportWrite u rs
      Except.ok (some rs)
    else Except.ok none
  let _ ← saveExamplesOrganized ctx.parse u
  Except.ok { chapter := identifierOf u
              success := match vr with
                | some rs => rs.all (fun r => r.result.success)
                | none => true
              vr := vr }

/-- `BookBuilder.generate_single_chapter`: the `try` body with its
`except Exception` handler, which records the failure under the file stem
with the exception's message and lets the build continue. -/
def generateSingleChapter (ctx : ValidateCtx) (validateFlag : Bool)
    (ui : UnitInput) : BuildResult :=
  match unitBody ctx validateFlag ui with
  | .ok c =>
    { chapter := c.chapter, success := c.success, error := none
      validation_results := c.vr }
  | .error e =>
    { chapter := .strId ui.stem, success := false, error := some (excMsg e)
      validation_results := none }

/-- `BookBuilder.generate_all_chapters`: the sequential per-unit loop. -/
def generateAllChapters (ctx : ValidateCtx) (validateFlag : Bool)
    (uis : List UnitInput) : List BuildResult :=
  uis.map (generateSingleChapter ctx validateFlag)

/-- The comparison key produced by `sort_key` in `create_build_summary`: a
Python tuple whose first component is the tier (0 chapters, 1 appendices,
2 everything else) and whose second component is an integer for the first
two tiers and a string for the last. -/
inductive SortKey where
  | t0 : Int → SortKey
  | t1 : Int → SortKey
  | t2 : String → SortKey
deriving DecidableEq

/-- The tier (first tuple component) of a sort key. -/
def tierOf : SortKey → Nat
  | .t0 _ => 0
  | .t1 _ => 1
  | .t2 _ => 2

/-- Accumulator loop for `pyWords`: collects maximal non-whitespace runs. -/
def wordsGo : List Char → List Char → List String
  | [], acc => if acc.isEmpty then [] else [String.mk acc.reverse]
  | c :: cs, acc =>
    if c.isWhitespace then
      if acc.isEmpty then wordsGo cs [] else String.mk acc.reverse :: wordsGo cs []
    else wordsGo cs (c :: acc)

/-- `chapter_id.split()`: split on whitespace runs, dropping empty pieces. -/
def pyWords (s : String) : List String :=
  wordsGo s.data []

/-- `sort_key` from `create_build_summary` (lines 175-188 of
`build_all_chapters.py`): integers sort in tier 0 by value; strings starting
with `Appendix ` sort in tier 1 by `ord` of the last whitespace-separated
word (an empty split would raise `IndexError`, and `ord` of a non-single-
character word raises `TypeError`; both are caught and mapped to 999);
every other identifier sorts in tier 2 by its string form. -/
def sort_key : ChapterId → SortKey
  | .intId n => .t0 n
  | .strId s =>
    if "Appendix ".data.isPrefixOf s.data then
      match (pyWords s).getLast? with
      | none => .t1 999
      | some w =>
        match w.data with
        | [c] => .t1 (c.toNat : Int)
        | _ => .t1 999
    else .t2 s

/-- Python `<=` on the `sort_key` tuples: lexicographic on (tier, value);
values of different tiers never reach the second component. -/
def keyLeB : SortKey → SortKey → Bool
  | .t0 m, .t0 n => m ≤ n
  | .t1 m, .t1 n => m ≤ n
  | .t2 s, .t2 t => s ≤ t
  | k, k2 => tierOf k < tierOf k2

/-- The ordering `sorted(results, key=sort_key)` sorts by, lifted to build
results. -/
def brLe (a b : BuildResult) : Prop :=
  keyLeB (sort_key a.chapter) (sort_key b.chapter) = true

instance : DecidableRel brLe := fun _ _ => instDecidableEqBool _ _

/-- `sorted(results, key=sort_key)` at line 190: Python's stable sort,
modelled by insertion sort (which is likewise stable). -/
def summaryListing (results : List BuildResult) : List BuildResult :=
  List.insertionSort brLe results

/-- The return value of `create_build_summary`:
`successful_chapters == total_chapters`. -/
def createBuildSummarySuccess (results : List BuildResult) : Bool :=
  results.countP (fun r => r.success) == results.length

/-- `main` of `build_all_chapters.py` as a function of the discovered unit
inputs, the validate flag, whether the HTML stage runs, and the exit code of
the `generate_html.py` subprocess.  When the HTML subprocess fails the code
assigns `success = False`, but the very next statement rebinds `success` to
`create_build_summary`'s return value, so that assignment is dead; the model
keeps it as the unused binding `_successAfterHtml`. -/
def mainExit (ctx : ValidateCtx) (uis : List UnitInput)
    (validateFlag htmlEnabled : Bool) (htmlExit : Int) : Int :=
  if uis.isEmpty then 1
  else
    let results := generateAllChapters ctx validateFlag uis
    let _successAfterHtml : Option Bool :=
      if htmlEnabled && htmlExit != 0 then some false else none
    let success := createBuildSummarySuccess results
    if success then 0 else 1

/-- The example directory referenced by the generated markdown's
`How to Run` block (line 274) and per-example download link (line 383):
`code/<unit-dir>/general/<name>/`, with the literal component `general`. -/
def markdownExamplePath (u : ContentUnit) (ex : Example) : List String :=
  ["code", dirNameOf u, "general", ex.name]

/-- The directory the packager writes the example into (lines 499-516):
`code/<unit-dir>/<section-tag>/<name>/`. -/
def packagedExamplePath (u : ContentUnit) (ex : Example) : List String :=
  ["code", dirNameOf u, sectionOf ex, ex.name]

/-- The five tagged outcomes the specification's `ValidationResult` allows,
with the payloads the corresponding dictionaries carry. -/
inductive SpecOutcome where
  | vSuccess : Json → String → String → SpecOutcome
  | vProcessFailure : Int → String → String → String → SpecOutcome
  | vTimeout : SpecOutcome
  | vParseFailure : String → String → String → String → SpecOutcome
  | vMismatch : Json → Json → String → String → SpecOutcome

/-- The dictionary shape of each of the five specified outcomes. -/
def dictOfOutcome : SpecOutcome → ValidationDict
  | .vSuccess a o e => successDict a o e
  | .vProcessFailure rc o e c => processFailureDict rc o e c
  | .vTimeout => timeoutDict
  | .vParseFailure r e c m => parseFailureDict r e c m
  | .vMismatch x a o e => mismatchDict x a o e

/-- Behaviour of `json.loads` on the concrete strings used in the fixtures
below, agreeing with the real parser on them. -/
def parse0 : String → Except String Json := fun s =>
  if s = "3" then .ok (.num 3)
  else if s = "[1, 2]" then .ok (.arr [.num 1, .num 2])
  else .error "Expecting value: line 1 column 1 (char 0)"

/-- A concrete validation context. -/
def ctx0 : ValidateCtx :=
  { parse := parse0
    computoPath := "computo"
    scriptPath := "/tmp/tmp1a2b3c.json"
    inputPath := "/tmp/tmp4d5e6f.json" }

/-- The `add_two` example of the specification's concrete scenario. -/
def exAdd : Example :=
  { name := "add_two"
    description := "adds two numbers"
    script := .doc (.arr [.str "add", .num 1, .num 2])
    expected := some (.num 3) }

/-- An example carrying a non-empty input document. -/
def exWithInput : Example :=
  { name := "with_input"
    description := "uses an input document"
    script := .doc (.arr [.str "get", .str "value"])
    input := [("value", .num 1)]
    expected := some (.num 1) }

/-- A unit input whose single chapter loads and succeeds. -/
def goodUnitInput : UnitInput :=
  { stem := "ch01_intro"
    loaded := .ok { kind := .chapter 1, title := "Intro", examples := [] }
    runs := fun _ => .completed 0 "" "" }

/-- Claim C1 (code divergence): with every unit succeeding, an enabled
hypertext stage and the `generate_html.py` subprocess exiting 1, `main`
nevertheless returns 0, because the `success = False` recorded in the HTML
failure branch is immediately overwritten by
`success = builder.create_build_summary(results)`.  Moreover the exit code
is entirely independent of the HTML subprocess exit code. -/
theorem c1_html_failure_exit_code :
    mainExit ctx0 [goodUnitInput] false true 1 = 0
  ∧ (∀ (c : ValidateCtx) (us : List UnitInput) (v he : Bool) (h1 h2 : Int),
      mainExit c us v he h1 = mainExit c us v he h2) := by
  refine ⟨rfl, ?_⟩
  intro c us v he h1 h2
  rfl

/-- Claim C2 counterexample: on the timeout exit path the temporary files
are not removed — the script file (and the created input file) survive the
validation, refuting removal on every exit path. -/
theorem c2_counterexample_timeout_leak :
    (validateExample ctx0 exWithInput .timeout).1 = timeoutDict
  ∧ (validateExample ctx0 exWithInput .timeout).2.scriptCreated = true
  ∧ (validateExample ctx0 exWithInput .timeout).2.scriptRemoved = false
  ∧ (validateExample ctx0 exWithInput .timeout).2.inputCreated = true
  ∧ (validateExample ctx0 exWithInput .timeout).2.inputRemoved = false :=
  ⟨rfl, rfl, rfl, rfl, rfl⟩

/-- Claim C2 as amended: the temporary files are removed exactly on the
exit paths where the interpreter invocation returns — every completed run
(whatever the classification) cleans up both files before classification,
while a timeout or an exception raised by the invocation itself leaves
every created temporary file behind. -/
theorem c2_amended_cleanup (ctx : ValidateCtx) (ex : Example) (rc : Int)
    (out err m : String) :
    (validateExample ctx ex (.completed rc out err)).2 = cleanedState ex
  ∧ (validateExample ctx ex .timeout).2 = createdState ex
  ∧ (validateExample ctx ex (.raises m)).2 = createdState ex := by
  refine ⟨?_, rfl, rfl⟩
  rw [validateExample_snd, tryBody_completed]

/-- Reduces `validateExample` on a completed run whose classification
produced a dictionary. -/
theorem validateExample_eq_ok (ctx : ValidateCtx) (ex : Example) (rc : Int)
    (out err : String) (d : ValidationDict)
    (h : classifyCompleted ctx ex rc out err = .ok d) :
    validateExample ctx ex (.completed rc out err) = (d, cleanedState ex) := by
  unfold validateExample
  rw [tryBody_completed, h]

/-- Claim C3: for an example with an expected output the classification
follows the specified priority order — timeout, then non-zero exit code,
then unparseable stdout, then structural mismatch, then success — and
validation succeeds iff the parsed output is structurally equal to the
expected document (object member order insignificant, array element order
significant, as the two concrete comparisons illustrate). -/
theorem c3_classification_priority (ctx : ValidateCtx) (ex : Example)
    (exp : Json) (rc : Int) (out err : String)
    (hexp : ex.expected = some exp) :
    (validateExample ctx ex .timeout).1 = timeoutDict
  ∧ (rc ≠ 0 → (validateExample ctx ex (.completed rc out err)).1
      = processFailureDict rc out err (cmdString ctx ex))
  ∧ (∀ msg, ctx.parse out = .error msg →
      (validateExample ctx ex (.completed 0 out err)).1
        = parseFailureDict out err (cmdString ctx ex) msg)
  ∧ (∀ a, ctx.parse out = .ok a → jeq a exp = false →
      (validateExample ctx ex (.completed 0 out err)).1
        = mismatchDict exp a out err)
  ∧ (∀ a, ctx.parse out = .ok a → jeq a exp = true →
      (validateExample ctx ex (.completed 0 out err)).1 = successDict a out err)
  ∧ ((validateExample ctx ex (.completed rc out err)).1.success = true
      ↔ rc = 0 ∧ ∃ a, ctx.parse out = .ok a ∧ jeq a exp = true)
  ∧ jeq (.obj [("a", .num 1), ("b", .num 2)])
        (.obj [("b", .num 2), ("a", .num 1)]) = true
  ∧ jeq (.arr [.num 1, .num 2]) (.arr [.num 2, .num 1]) = false := by
  refine ⟨rfl, ?_, ?_, ?_, ?_, ?_, ?_, ?_⟩
  · intro hrc
    have hcl : classifyCompleted ctx ex rc out err
        = .ok (processFailureDict rc out err (cmdString ctx ex)) := by
      unfold classifyCompleted
      rw [if_pos hrc]
    rw [validateExample_eq_ok ctx ex rc out err _ hcl]
  · intro msg hmsg
    have hcl : classifyCompleted ctx ex 0 out err
        = .ok (parseFailureDict out err (cmdString ctx ex) msg) := by
      unfold classifyCompleted
      simp [hmsg]
    rw [validateExample_eq_ok ctx ex 0 out err _ hcl]
  · intro a ha hj
    have hcl : classifyCompleted ctx ex 0 out err
        = .ok (mismatchDict exp a out err) := by
      unfold classifyCompleted
      simp [ha, hexp, hj]
    rw [validateExample_eq_ok ctx ex 0 out err _ hcl]
  · intro a ha hj
    have hcl : classifyCompleted ctx ex 0 out err
        = .ok (successDict a out err) := by
      unfold classifyCompleted
      simp [ha, hexp, hj]
    rw [validateExample_eq_ok ctx ex 0 out err _ hcl]
  · by_cases hrc : rc = 0
    · subst hrc
      cases hp : ctx.parse out with
      | error msg =>
        have hcl : classifyCompleted ctx ex 0 out err
            = .ok (parseFailureDict out err (cmdString ctx ex) msg) := by
          unfold classifyCompleted
          simp [hp]
        rw [validateExample_eq_ok ctx ex 0 out err _ hcl]
        simp [parseFailureDict, hp]
      | ok a =>
        by_cases hj : jeq a exp = true
        · have hcl : classifyCompleted ctx ex 0 out err
              = .ok (successDict a out err) := by
            unfold classifyCompleted
            simp [hp, hexp, hj]
          rw [validateExample_eq_ok ctx ex 0 out err _ hcl]
          simp [successDict, hp, hj]
        · have hj2 : jeq a exp = false := by
            simpa using hj
          have hcl : classifyCompleted ctx ex 0 out err
              = .ok (mismatchDict exp a out err) := by
            unfold classifyCompleted
            simp [hp, hexp, hj2]
          rw [validateExample_eq_ok ctx ex 0 out err _ hcl]
          simp only [mismatchDict]
          constructor
          · intro hfalse
            exact absurd hfalse (by simp)
          · rintro ⟨-, a2, ha2, hj3⟩
            cases ha2
            exact absurd hj3 hj
    · have hcl : classifyCompleted ctx ex rc out err
          = .ok (processFailureDict rc out err (cmdString ctx ex)) := by
        unfold classifyCompleted
        rw [if_pos hrc]
      rw [validateExample_eq_ok ctx ex rc out err _ hcl]
      simp only [processFailureDict]
      constructor
      · intro hfalse
        exact absurd hfalse (by simp)
      · rintro ⟨h0, -⟩
        exact absurd h0 hrc
  · simp [jeq, jeqFields, jeqKey]
  · simp [jeq, jeqList]

/-- Claim C3 witness: the theorem applied to the `add_two` fixture with a
non-zero interpreter exit code. -/
theorem c3_classification_priority_witness :
    exAdd.expected = some (Json.num 3)
  ∧ (validateExample ctx0 exAdd (.completed 1 "x" "e")).1
      = processFailureDict 1 "x" "e" (cmdString ctx0 exAdd) :=
  ⟨rfl, (c3_classification_priority ctx0 exAdd (Json.num 3) 1 "x" "e" rfl).2.1
    (by decide)⟩

/-- An example with no expected-output document. -/
def exNoExpected : Example :=
  { name := "show_only"
    description := "prints a value"
    script := .doc (.num 3) }

/-- Claim C4 counterexample: an example with no expected output IS judged
pass/fail — the validator returns a failure dictionary (success False, the
catch-all handler's message for the `KeyError` on `expected`) — and its
file set is NOT produced: building it raises the same `KeyError`. -/
theorem c4_counterexample_no_expected :
    (validateExample ctx0 exNoExpected (.completed 0 "3" "")).1.success = false
  ∧ (validateExample ctx0 exNoExpected (.completed 0 "3" "")).1.error
      = some "Unexpected error: \x27expected\x27"
  ∧ exampleFiles parse0 exNoExpected = .error (.keyError "expected") :=
  ⟨rfl, rfl, rfl⟩

/-- Claim C4 as amended: an example with no expected-output document is
judged a validation failure — whenever the interpreter run completes with
exit code 0 and parseable output, the catch-all handler returns the
unexpected-error dictionary for the `KeyError` on `expected` — and instead
of packaging its file set the packager raises that same `KeyError`, which
becomes a unit-level failure. -/
theorem c4_amended_no_expected (ctx : ValidateCtx) (ex : Example)
    (out err : String) (a : Json)
    (hexp : ex.expected = none) (hp : ctx.parse out = .ok a) :
    (validateExample ctx ex (.completed 0 out err)).1
      = unexpectedDict (.keyError "expected")
  ∧ exampleFiles ctx.parse ex = .error (.keyError "expected") := by
  constructor
  · have hcl : classifyCompleted ctx ex 0 out err
        = .error (.keyError "expected") := by
      unfold classifyCompleted
      simp [hp, hexp]
    unfold validateExample
    rw [tryBody_completed, hcl]
  · unfold exampleFiles
    rw [hexp]

/-- Claim C4 amended witness: the amended theorem applied to the concrete
fixture. -/
theorem c4_amended_no_expected_witness :
    exNoExpected.expected = none
  ∧ parse0 "3" = .ok (.num 3)
  ∧ ((validateExample ctx0 exNoExpected (.completed 0 "3" "errtext")).1
       = unexpectedDict (.keyError "expected")
     ∧ exampleFiles parse0 exNoExpected = .error (.keyError "expected")) :=
  ⟨rfl, rfl,
    c4_amended_no_expected ctx0 exNoExpected "3" "errtext" (.num 3) rfl rfl⟩

/-- An example owned by the appendix fixture below. -/
def appEx : Example :=
  { name := "ascii_table"
    description := "prints a table"
    script := .doc (.str "table")
    expected := some (.num 3) }

/-- An appendix content unit with one example. -/
def appUnitA : ContentUnit :=
  { kind := .appendix "A", title := "Quick-Reference", examples := [appEx] }

/-- A chapter content unit with one example. -/
def chUnit3 : ContentUnit :=
  { kind := .chapter 3, title := "Data Mapping", examples := [appEx] }

/-- Claim C5 (code divergence): packaging an appendix's examples raises
`NameError` on the unbound `chapter_num` while building the first
example's metadata, and writing an appendix's test report raises `KeyError`
on the missing `chapter` table — so no appendix archive, metadata document
or test report is ever produced, while the same pipeline succeeds for a
chapter (zip `ch03_examples.zip`, per-example file set and metadata naming
the owning chapter). -/
theorem c5_appendix_packaging_crash :
    saveExamplesOrganized parse0 appUnitA = .error (.nameError "chapter_num")
  ∧ testReportWrite appUnitA [{ ex := appEx, result := timeoutDict }]
      = .error (.keyError "chapter")
  ∧ ∃ out, saveExamplesOrganized parse0 chUnit3 = .ok (some out)
      ∧ out.zipName = "ch03_examples.zip"
      ∧ out.examples.map (fun p => p.path)
          = [["code", "ch03_data_mapping", "general", "ascii_table"]]
      ∧ out.examples.map (fun p => p.metadata.chapter) = [3]
      ∧ out.examples.map (fun p => p.metadata.chapter_title) = ["Data Mapping"]
      ∧ out.examples.map (fun p => p.files)
          = [[("expected.json", Json.num 3), ("script.json", Json.str "table")]] :=
  ⟨rfl, rfl, ⟨_, rfl, rfl, rfl, rfl, rfl, rfl⟩⟩

/-- Claim C6 counterexample: for a textual script the Validator hands the
interpreter a JSON string literal while the Packager writes the parsed
document, so the two disagree. -/
theorem c6_counterexample_text_script :
    validatorScriptDoc (.text "[1, 2]") = .str "[1, 2]"
  ∧ packagedScriptDoc parse0 (.text "[1, 2]") = .arr [.num 1, .num 2]
  ∧ validatorScriptDoc (.text "[1, 2]")
      ≠ packagedScriptDoc parse0 (.text "[1, 2]") := by
  refine ⟨rfl, rfl, ?_⟩
  intro h
  exact Json.noConfusion
    (show Json.str "[1, 2]" = Json.arr [.num 1, .num 2] from h)

/-- Claim C6 as amended: the two components agree on an already-structured
script, and on a textual script that fails to parse (both then produce the
string literal); but when a textual script parses successfully, the
Packager writes the parsed document while the Validator still serializes
the raw text as a JSON string literal. -/
theorem c6_amended_script_normalization
    (parse : String → Except String Json) (j : Json) (t : String) :
    packagedScriptDoc parse (.doc j) = validatorScriptDoc (.doc j)
  ∧ (∀ msg, parse t = .error msg →
      packagedScriptDoc parse (.text t) = validatorScriptDoc (.text t))
  ∧ (∀ j2, parse t = .ok j2 →
      packagedScriptDoc parse (.text t) = j2
      ∧ validatorScriptDoc (.text t) = .str t) := by
  refine ⟨rfl, ?_, ?_⟩
  · intro msg h
    simp [packagedScriptDoc, validatorScriptDoc, h]
  · intro j2 h
    refine ⟨?_, rfl⟩
    simp [packagedScriptDoc, h]

/-- Claim C6 amended witness: the amended theorem applied to a textual
script that the parser accepts. -/
theorem c6_amended_script_normalization_witness :
    parse0 "[1, 2]" = .ok (.arr [.num 1, .num 2])
  ∧ (packagedScriptDoc parse0 (.text "[1, 2]") = .arr [.num 1, .num 2]
     ∧ validatorScriptDoc (.text "[1, 2]") = .str "[1, 2]") :=
  ⟨rfl, (c6_amended_script_normalization parse0 (.num 0) "[1, 2]").2.2
    (.arr [.num 1, .num 2]) rfl⟩

/-- A unit input whose loading raises. -/
def badUnitInput : UnitInput :=
  { stem := "ch02_broken"
    loaded := .error "boom"
    runs := fun _ => .timeout }

/-- Claim C7: failure containment — every exception in the validation `try`
body is turned into a returned failure dictionary (timeout or the
catch-all), so validating one example can never abort its siblings, and the
per-unit list always has one result per example; an exception while loading
or processing a unit is recorded as that unit's failure record (file stem,
success False, the exception's message as error detail), and the per-unit
loop is a map, so every other unit is still processed. -/
theorem c7_failure_containment (ctx : ValidateCtx) (vf : Bool) (ex : Example)
    (run : RunOutcome) (e eu : PyExc) (st : TempState) (ui : UnitInput)
    (uis : List UnitInput) (exs : List Example) (runs : Nat → RunOutcome)
    (h1 : tryBody ctx ex run = (.error e, st))
    (h2 : unitBody ctx vf ui = .error eu) :
    (validateExample ctx ex run).1
      = (if e = .timeoutExpired then timeoutDict else unexpectedDict e)
  ∧ (validateExample ctx ex run).1.success = false
  ∧ (validateAllExamples ctx exs runs).length = exs.length
  ∧ generateSingleChapter ctx vf ui
      = { chapter := .strId ui.stem, success := false
          error := some (excMsg eu), validation_results := none }
  ∧ generateAllChapters ctx vf uis = uis.map (generateSingleChapter ctx vf) := by
  have hmain : (validateExample ctx ex run).1
      = (if e = .timeoutExpired then timeoutDict else unexpectedDict e) := by
    unfold validateExample
    rw [h1]
    cases e <;> simp
  refine ⟨hmain, ?_, ?_, ?_, rfl⟩
  · rw [hmain]
    cases e <;> simp [timeoutDict, unexpectedDict]
  · unfold validateAllExamples
    simp
  · unfold generateSingleChapter
    rw [h2]

/-- Claim C7 witness: the theorem applied to a timed-out example and a unit
whose load fails. -/
theorem c7_failure_containment_witness :
    tryBody ctx0 exAdd .timeout = (.error .timeoutExpired, createdState exAdd)
  ∧ unitBody ctx0 false badUnitInput = .error (.otherErr "boom")
  ∧ generateSingleChapter ctx0 false badUnitInput
      = { chapter := .strId "ch02_broken", success := false
          error := some "boom", validation_results := none } :=
  ⟨rfl, rfl,
    (c7_failure_containment ctx0 false exAdd .timeout .timeoutExpired
      (.otherErr "boom") (createdState exAdd) badUnitInput [] []
      (fun _ => .timeout) rfl rfl).2.2.2.1⟩

/-- Claim C8 counterexample: when `subprocess.run` itself raises (for
example because the interpreter executable is missing), the returned
dictionary is the catch-all unexpected-error shape, which matches none of
the five specified outcomes. -/
theorem c8_counterexample_sixth_outcome :
    (validateExample ctx0 exAdd (.raises "No such file or directory")).1
      = unexpectedDict (.otherErr "No such file or directory")
  ∧ ¬ ∃ v : SpecOutcome,
      (validateExample ctx0 exAdd (.raises "No such file or directory")).1
        = dictOfOutcome v := by
  refine ⟨rfl, ?_⟩
  rintro ⟨v, hv⟩
  have hv2 : unexpectedDict (.otherErr "No such file or directory")
      = dictOfOutcome v := hv
  cases v with
  | vSuccess a o e =>
    exact Bool.noConfusion (congrArg ValidationDict.success hv2)
  | vProcessFailure rc o e c =>
    exact Option.noConfusion (congrArg ValidationDict.command hv2)
  | vTimeout =>
    have hs := Option.some.inj (congrArg ValidationDict.error hv2)
    exact absurd hs (by decide)
  | vParseFailure r e c m =>
    exact Option.noConfusion (congrArg ValidationDict.command hv2)
  | vMismatch x a o e =>
    exact Option.noConfusion (congrArg ValidationDict.expected hv2)

/-- Claim C8 as amended: every validation run yields exactly one of six
dictionary shapes — the five specified tagged outcomes, or the catch-all
unexpected-error shape produced when the invocation itself raises or the
example has no expected output. -/
theorem c8_amended_six_outcomes (ctx : ValidateCtx) (ex : Example)
    (run : RunOutcome) :
    (∃ v : SpecOutcome, (validateExample ctx ex run).1 = dictOfOutcome v)
  ∨ (∃ e : PyExc, (validateExample ctx ex run).1 = unexpectedDict e) := by
  cases run with
  | timeout => exact .inl ⟨.vTimeout, rfl⟩
  | raises m => exact .inr ⟨.otherErr m, rfl⟩
  | completed rc out err =>
    by_cases hrc : rc = 0
    · subst hrc
      cases hp : ctx.parse out with
      | error msg =>
        have hcl : classifyCompleted ctx ex 0 out err
            = .ok (parseFailureDict out err (cmdString ctx ex) msg) := by
          unfold classifyCompleted
          simp [hp]
        exact .inl ⟨.vParseFailure out err (cmdString ctx ex) msg,
          by rw [validateExample_eq_ok ctx ex 0 out err _ hcl]; rfl⟩
      | ok a =>
        cases hexp : ex.expected with
        | none =>
          have hcl : classifyCompleted ctx ex 0 out err
              = .error (.keyError "expected") := by
            unfold classifyCompleted
            simp [hp, hexp]
          refine .inr ⟨.keyError "expected", ?_⟩
          unfold validateExample
          rw [tryBody_completed, hcl]
        | some exp =>
          by_cases hj : jeq a exp = true
          · have hcl : classifyCompleted ctx ex 0 out err
                = .ok (successDict a out err) := by
              unfold classifyCompleted
              simp [hp, hexp, hj]
            exact .inl ⟨.vSuccess a out err,
              by rw [validateExample_eq_ok ctx ex 0 out err _ hcl]; rfl⟩
          · have hj2 : jeq a exp = false := by
              simpa using hj
            have hcl : classifyCompleted ctx ex 0 out err
                = .ok (mismatchDict exp a out err) := by
              unfold classifyCompleted
              simp [hp, hexp, hj2]
            exact .inl ⟨.vMismatch exp a out err,
              by rw [validateExample_eq_ok ctx ex 0 out err _ hcl]; rfl⟩
    · have hcl : classifyCompleted ctx ex rc out err
          = .ok (processFailureDict rc out err (cmdString ctx ex)) := by
        unfold classifyCompleted
        rw [if_pos hrc]
      exact .inl ⟨.vProcessFailure rc out err (cmdString ctx ex),
        by rw [validateExample_eq_ok ctx ex rc out err _ hcl]; rfl⟩

/-- The key comparison is total. -/
theorem keyLeB_total (a b : SortKey) : keyLeB a b = true ∨ keyLeB b a = true := by
  cases a <;> cases b <;>
    simp only [keyLeB, tierOf, decide_eq_true_eq] <;>
    first
      | exact Int.le_total _ _
      | exact le_total _ _
      | omega

/-- The key comparison is transitive. -/
theorem keyLeB_trans (a b c : SortKey) (hab : keyLeB a b = true)
    (hbc : keyLeB b c = true) : keyLeB a c = true := by
  cases a <;> cases b <;> cases c <;>
    simp only [keyLeB, tierOf, decide_eq_true_eq] at hab hbc ⊢ <;>
    first
      | omega
      | exact le_trans hab hbc

instance : IsTotal BuildResult brLe :=
  ⟨fun a b => keyLeB_total (sort_key a.chapter) (sort_key b.chapter)⟩

instance : IsTrans BuildResult brLe :=
  ⟨fun a b c => keyLeB_trans (sort_key a.chapter) (sort_key b.chapter)
    (sort_key c.chapter)⟩

/-- The claim's concrete scenario: chapters 2 and 1, appendices B and A, in
that (unsorted) discovery order. -/
def demoResults : List BuildResult :=
  [ { chapter := .intId 2, success := true, error := none
      validation_results := none }
  , { chapter := .intId 1, success := true, error := none
      validation_results := none }
  , { chapter := .strId "Appendix B", success := true, error := none
      validation_results := none }
  , { chapter := .strId "Appendix A", success := true, error := none
      validation_results := none } ]

/-- Claim C9: the summary listing is the stable sort of the unit results by
`sort_key`, a total three-tier order: chapters (integer identifiers) form
tier 0 ordered by ascending number, `Appendix <letter>` strings form tier 1
ordered by the letter's code point, every other identifier forms tier 2
ordered lexicographically by its string form; lower tiers sort strictly
first; the output is a permutation of the input, sorted under this order;
and on chapters 2, 1 and appendices B, A the listing is
chapter 1, chapter 2, appendix A, appendix B. -/
theorem c9_summary_sort_order (m n x y : Int) (s t : String)
    (rs : List BuildResult)
    (hs : "Appendix ".data.isPrefixOf s.data = false) :
    sort_key (.intId m) = .t0 m
  ∧ sort_key (.strId s) = .t2 s
  ∧ sort_key (.strId "Appendix A") = .t1 65
  ∧ sort_key (.strId "Appendix B") = .t1 66
  ∧ (keyLeB (.t0 m) (.t0 n) = true ↔ m ≤ n)
  ∧ (keyLeB (.t1 x) (.t1 y) = true ↔ x ≤ y)
  ∧ (keyLeB (.t2 s) (.t2 t) = true ↔ s ≤ t)
  ∧ (∀ k k2 : SortKey, tierOf k < tierOf k2 →
      keyLeB k k2 = true ∧ keyLeB k2 k = false)
  ∧ (∀ k k2 : SortKey, keyLeB k k2 = true ∨ keyLeB k2 k = true)
  ∧ (summaryListing rs).Perm rs
  ∧ List.Sorted brLe (summaryListing rs)
  ∧ (summaryListing demoResults).map (fun r => r.chapter)
      = [.intId 1, .intId 2, .strId "Appendix A", .strId "Appendix B"] := by
  refine ⟨rfl, ?_, by decide, by decide, by simp [keyLeB], by simp [keyLeB],
    by simp [keyLeB], ?_, keyLeB_total, List.perm_insertionSort brLe rs,
    List.sorted_insertionSort brLe rs, by decide⟩
  · simp [sort_key, hs]
  · intro k k2 h
    cases k <;> cases k2 <;>
      simp only [tierOf] at h <;>
      first
        | omega
        | exact ⟨by simp [keyLeB, tierOf], by simp [keyLeB, tierOf]⟩

/-- Claim C9 witness: the theorem applied to the concrete identifier
`zzz` (not appendix-shaped) and the demo listing. -/
theorem c9_summary_sort_order_witness :
    ("Appendix ".data.isPrefixOf "zzz".data) = false
  ∧ sort_key (.strId "zzz") = .t2 "zzz"
  ∧ (summaryListing demoResults).map (fun r => r.chapter)
      = [.intId 1, .intId 2, .strId "Appendix A", .strId "Appendix B"] := by
  refine ⟨by decide, ?_, ?_⟩
  · exact (c9_summary_sort_order 0 0 0 0 "zzz" "t" [] (by decide)).2.1
  · exact (c9_summary_sort_order 0 0 0 0 "zzz" "t" []
      (by decide)).2.2.2.2.2.2.2.2.2.2.2

/-- An example carrying a non-default section tag. -/
def exAdv : Example :=
  { name := "adv_example"
    description := "advanced example"
    script := .doc (.num 1)
    expected := some (.num 1)
    sectionTag := some "advanced" }

/-- A chapter whose only example lives in the `advanced` section. -/
def chUnit4 : ContentUnit :=
  { kind := .chapter 4, title := "Advanced Topics", examples := [exAdv] }

/-- Claim C10: the markdown's How-to-Run block and per-example download
link always reference `code/<unit-dir>/general/<name>/`, while the packager
writes `code/<unit-dir>/<section-tag>/<name>/`; the two coincide exactly
when the example's section tag is `general` or absent, and the concrete
`advanced` example shows the divergence. -/
theorem c10_markdown_path_versus_packaged (u : ContentUnit) (ex : Example) :
    (markdownExamplePath u ex = packagedExamplePath u ex
      ↔ (ex.sectionTag = none ∨ ex.sectionTag = some "general"))
  ∧ (∃ out, saveExamplesOrganized parse0 chUnit4 = .ok (some out)
      ∧ out.examples.map (fun p => p.path)
          = [["code", "ch04_advanced_topics", "advanced", "adv_example"]])
  ∧ markdownExamplePath chUnit4 exAdv
      = ["code", "ch04_advanced_topics", "general", "adv_example"]
  ∧ packagedExamplePath chUnit4 exAdv
      = ["code", "ch04_advanced_topics", "advanced", "adv_example"] := by
  refine ⟨?_, ⟨_, rfl, by decide⟩, by decide, by decide⟩
  unfold markdownExamplePath packagedExamplePath sectionOf
  cases h : ex.sectionTag with
  | none => simp
  | some s => simp [eq_comm]
